import Mathlib

/-!
Verification development for the camie-agent voice-call orchestration
service (`src/agent-service`).  Python dictionaries that carry raw
configuration data are shallowly embedded as association lists over a
small JSON-like value type; every function below is translated from the
named Python source function, keeping its branching structure.  Network
calls, the event loop and timestamps are made explicit parameters.
-/

/-- JSON-like runtime values, modelling the Python values that flow
through the configuration dictionaries (`None`, `bool`, numbers,
strings, lists, dicts).  Numbers are exact rationals. -/
inductive JsonVal where
  | null : JsonVal
  | bool (b : Bool) : JsonVal
  | num (q : Rat) : JsonVal
  | str (s : String) : JsonVal
  | arr (elems : List JsonVal) : JsonVal
  | obj (fields : List (String × JsonVal)) : JsonVal

/-- A Python dict with string keys, as an association list (keys unique
in all dictionaries built by the embedded code). -/
abbrev RawDict := List (String × JsonVal)

/-- First-match association-list lookup; models `key in d` / `d[key]`
for dicts with unique keys. -/
def lookupA {α : Type} : List (String × α) → String → Option α
  | [], _ => none
  | (k, v) :: rest, key => if k = key then some v else lookupA rest key

/-- Models Python `d.get(key)` (returns `None` when the key is absent,
here `Option.none`). -/
def jLook (d : RawDict) (key : String) : Option JsonVal :=
  lookupA d key

/-- Models Python `d.get(key, dflt)`: the stored value when the key is
present (even if that value is `None`), otherwise the default. -/
def jGetD (d : RawDict) (key : String) (dflt : JsonVal) : JsonVal :=
  (jLook d key).getD dflt

/-- Python truthiness of a value (`if v:`). -/
def JsonVal.truthy : JsonVal → Bool
  | .null => false
  | .bool b => b
  | .num q => q ≠ 0
  | .str s => s ≠ ""
  | .arr elems => ¬ elems.isEmpty
  | .obj fields => ¬ fields.isEmpty

/-- View a value as a dict.  Python code that calls `.get` on a
non-dict raises `AttributeError`; every such call site below sits under
a caller `try/except` whose handler returns the empty configuration, so
the embedding short-circuits non-dict values to the empty dict, which
gives the same observable result at the resolver boundary. -/
def JsonVal.asObjD : JsonVal → RawDict
  | .obj fields => fields
  | _ => []

/-- Python `isinstance(v, bool)`. -/
def JsonVal.isBool : JsonVal → Bool
  | .bool _ => true
  | _ => false

/-- Python `isinstance(v, dict)`. -/
def JsonVal.isObj : JsonVal → Bool
  | .obj _ => true
  | _ => false

/-- Python `int(x)` on a number: truncation toward zero. -/
def pyInt (q : Rat) : Int :=
  if 0 ≤ q then q.floor else -((-q).floor)

/-- Numeric read with default: models `config.get(key, dflt)` at call
sites that apply `int(...)`/`float(...)`, on the domain where the stored
value is a number (the only case exercised by the claims). -/
def jNumD (d : RawDict) (key : String) (dflt : Rat) : Rat :=
  match jLook d key with
  | some (.num q) => q
  | _ => dflt

/-- Python `d.update(upd)`: existing keys are overwritten in place,
new keys are appended in order. -/
def dictUpdate (d upd : RawDict) : RawDict :=
  d.map (fun kv => (kv.1, (jLook upd kv.1).getD kv.2)) ++
    upd.filter (fun kv => (jLook d kv.1).isNone)

namespace ConfigProcessor

/-- Tool configuration as produced by
`utils/config_processor.py::ToolConfig` (and the identical dataclass in
`agent.py`).  Python `None` is `JsonVal.null`. -/
structure ToolConfig where
  enabled : JsonVal
  url : JsonVal
  metadata : JsonVal

/-- The four statically known tool names, in the iteration order of the
`default_tools` dict in `prepare_tool_configs`. -/
def default_tool_names : List String :=
  ["knowledge_base", "sms", "calendar", "email"]

/-- One iteration of the loop body of
`ConfigProcessor.prepare_tool_configs` (identical to
`Assistant._prepare_tool_configs` in `agent.py`): boolean values map to
`ToolConfig(enabled=b, url=None, metadata=None)`, dicts are read with
`.get`, and anything else is disabled. -/
def normalize_tool_entry : JsonVal → ToolConfig
  | .bool b => ⟨.bool b, .null, .null⟩
  | .obj fields =>
      ⟨jGetD fields "enabled" (.bool false),
       jGetD fields "url" .null,
       jGetD fields "metadata" (.obj [])⟩
  | _ => ⟨.bool false, .null, .null⟩

/-- `ConfigProcessor.prepare_tool_configs`
(`utils/config_processor.py`, lines 91-138; the same code appears as
`Assistant._prepare_tool_configs` in `agent.py`, lines 350-397). -/
def prepare_tool_configs (tools_config : RawDict) :
    List (String × ToolConfig) :=
  default_tool_names.map fun name =>
    (name, normalize_tool_entry (jGetD tools_config name (.bool false)))

/-- `ConfigProcessor.prepare_tts_config`
(`utils/config_processor.py`, lines 46-68).  Percentage fields are
divided by 100 after `int(...)` truncation. -/
def prepare_tts_config (config : RawDict) : RawDict :=
  [("provider", jGetD config "voice_provider" (.str "cartesia")),
   ("model", jGetD config "voice_provider_model" (.str "sonic-2")),
   ("voice", jGetD config "voice" .null),
   ("custom_voice_id", jGetD config "custom_voice_id" .null),
   ("speed", .num (jNumD config "voice_speed" 1)),
   ("stability", .num ((pyInt (jNumD config "stability" 75) : Rat) / 100)),
   ("similarity_boost",
     .num ((pyInt (jNumD config "clarity_similarity" 85) : Rat) / 100)),
   ("voice_improvement",
     .bool (jGetD config "voice_improvement" (.bool true)).truthy),
   ("language", jGetD config "agent_language" (.str "en-US"))]

end ConfigProcessor

namespace AgentPy

/-- `Assistant._prepare_tts_config` (`agent.py`, lines 330-344).  Unlike
the `ConfigProcessor` version, the percentage fields are passed through
verbatim and the similarity field keeps its raw name. -/
def prepare_tts_config (config : RawDict) : RawDict :=
  [("provider", jGetD config "voice_provider" .null),
   ("voice", jGetD config "voice" .null),
   ("custom_voice_id", jGetD config "custom_voice_id" .null),
   ("speed", jGetD config "voice_speed" (.num 1)),
   ("stability", jGetD config "stability" (.num 75)),
   ("clarity_similarity", jGetD config "clarity_similarity" (.num 80)),
   ("voice_improvement", jGetD config "voice_improvement" (.bool true)),
   ("language", jGetD config "agent_language" .null)]

end AgentPy

namespace ModelFactory

/-- The TTS instance selected by `ModelFactory.create_tts`, with the
constructor arguments it receives.  `cartesiaFallback` is the
unsupported-provider branch, which uses `TTSConfig.CARTESIA_DEFAULT_FR`
from `config/config_definitions.py`. -/
inductive TTSChoice where
  | elevenlabs (model voice_id language : JsonVal) (voice_settings : RawDict)
  | cartesia (model voice : JsonVal) (kwargs : RawDict)
  | cartesiaFallback (model language voice : JsonVal)

/-- Python `str.lower()` on ASCII provider names (uppercase letters
mapped to lowercase, everything else unchanged). -/
def pyLower (s : String) : String :=
  String.mk (s.data.map fun c =>
    if c.val ≥ 65 ∧ c.val ≤ 90 then Char.ofNat (c.toNat + 32) else c)

/-- The kwargs-building loops of `model_factory.py`: a parameter is
included iff `config.get(param) is not None`. -/
def optionalParams (config : RawDict) (names : List String) : RawDict :=
  names.filterMap fun p =>
    match jLook config p with
    | some .null => none
    | some v => some (p, v)
    | none => none

/-- `ModelFactory.create_tts` (`utils/model_factory.py`, lines 132-217).
`config.get("provider", "").lower()` raises `AttributeError` when the
stored provider is not a string (for example `None`), which the
embedding returns as `.error`. -/
def create_tts (config : RawDict) : Except String TTSChoice :=
  match jGetD config "provider" (.str "") with
  | .str s =>
      let provider := if pyLower s = "" then "cartesia" else pyLower s
      if provider = "elevenlabs" then
        .ok (.elevenlabs (jGetD config "model" (.str "eleven_turbo_v2_5"))
          (jGetD config "voice" (.str "EXAVITQu4vr4xnSDxMaL"))
          (jGetD config "language" (.str "en"))
          (optionalParams config ["stability", "similarity_boost", "style", "speed"]))
      else if provider = "cartesia" then
        .ok (.cartesia (jGetD config "model" (.str "cartesia-tts-1"))
          (jGetD config "voice" (.str "female-01"))
          (optionalParams config ["speed", "pitch"]))
      else
        .ok (.cartesiaFallback .null (.str "fr")
          (.str "5c3c89e5-535f-43ef-b14d-f8ffe148c1f0"))
  | _ => .error "AttributeError"

/-- The ElevenLabs `VoiceSettings` kwargs handed to the TTS engine by
`create_tts`, empty for the other branches. -/
def tts_settings : Except String TTSChoice → RawDict
  | .ok (.elevenlabs _ _ _ vs) => vs
  | _ => []

end ModelFactory

namespace Monitors

/-- Firing time of the silence monitor
(`Assistant._monitor_silence`, `agent.py` lines 564-609, identical to
`SessionMonitors._monitor_silence` in `utils/session_monitors.py`):
the loop body is `wait_for(voice_activity_event, timeout=T2)` and each
voice-activity signal observed before the current deadline restarts the
window from the signal's time.  `voice` is the ascending list of
voice-activity times; the result is the instant the `TimeoutError`
branch runs. -/
def silence_fire_time (T2 : Nat) : List Nat → Nat → Nat
  | [], deadline => deadline
  | v :: rest, deadline =>
      if v < deadline then silence_fire_time T2 rest (v + T2) else deadline

/-- Outcome of the race between the duration monitor and the silence
monitor for one session. -/
structure MonitorRaceResult where
  reason : String
  end_time : Nat
  duration_monitor_cancelled_clean : Bool
deriving DecidableEq, Repr

/-- Discrete-event execution of the two monitor tasks started by
`Assistant.start_session`:
the duration monitor (`_monitor_call_duration`) sleeps `T1`, speaks a
farewell, waits the fixed 8-second grace period, then calls
`end_session("max_duration_exceeded")`; the silence monitor fires at
`silence_fire_time`, speaks a farewell, waits the same 8 seconds, then
calls `end_session("silence_timeout")`.  Whichever `end_session` runs
first cancels the other task; the cancelled monitor catches
`asyncio.CancelledError` and exits cleanly (`except CancelledError`
branches of both monitors), recorded by
`duration_monitor_cancelled_clean`. -/
def monitor_race (T1 T2 : Nat) (voice : List Nat) : MonitorRaceResult :=
  let sEnd := silence_fire_time T2 voice T2 + 8
  let dEnd := T1 + 8
  if sEnd < dEnd then ⟨"silence_timeout", sEnd, true⟩
  else ⟨"max_duration_exceeded", dEnd, false⟩

end Monitors

namespace ConfigFetcher

/-- One anchored attempt of the regex `twilio-(\+?\d+)-` from
`extract_phone_from_room_name`: at the current position the text must
read `twilio-`, then an optional `+`, then a maximal nonempty digit
run, then `-`; the captured group is the optional `+` and the digits. -/
def matchTwilioAt : List Char → Option String
  | 't' :: 'w' :: 'i' :: 'l' :: 'i' :: 'o' :: '-' :: rest =>
      let (plus, body) :=
        match rest with
        | '+' :: r => ("+", r)
        | r => ("", r)
      let digits := body.takeWhile Char.isDigit
      let afterDigits := body.dropWhile Char.isDigit
      if digits.isEmpty then none
      else
        match afterDigits with
        | '-' :: _ => some (plus ++ String.mk digits)
        | _ => none
  | _ => none

/-- `re.search`: try the pattern at every start position, leftmost
match wins. -/
def searchTwilio : List Char → Option String
  | [] => none
  | c :: rest =>
      match matchTwilioAt (c :: rest) with
      | some s => some s
      | none => searchTwilio rest

/-- `extract_phone_from_room_name` (`utils/config_fetcher.py`, lines
15-34). -/
def extract_phone_from_room_name (room_name : String) : Option String :=
  if room_name = "" then none else searchTwilio room_name.data

/-- Lookup in a dict whose keys may be Python `None`
(`Option.none`). -/
def lookupK : List (Option String × JsonVal) → Option String → Option JsonVal
  | [], _ => none
  | (k, v) :: rest, key => if k = key then some v else lookupK rest key

/-- The JWT payload built by `create_phone_jwt`
(`utils/config_fetcher.py`, lines 37-61):
`{"phone_number": phone_number, direction: direction, "room_name":
room_name}`.  Note that the second entry uses the *value* of
`direction` as the dict key (the source writes `direction: direction`,
not `"direction": direction`), and that no `iat` or `exp` claim is
added.  The modelled domain has `direction` distinct from the two fixed
keys, so duplicate-key overwriting cannot occur. -/
def create_phone_jwt_payload (phone_number : String)
    (direction : Option String) (room_name : Option String) :
    List (Option String × JsonVal) :=
  [(some "phone_number", .str phone_number),
   (direction, match direction with
               | some d => .str d
               | none => .null),
   (some "room_name", match room_name with
                      | some r => .str r
                      | none => .null)]

/-- The success test of line 102: `result.get("responseCode") != "00"`
is false exactly when the stored response code is the string `"00"`. -/
def response_code_ok (result : RawDict) : Bool :=
  match jLook result "responseCode" with
  | some (.str "00") => true
  | _ => false

/-- The pure response-processing core of `fetch_agent_config_by_phone`
(`utils/config_fetcher.py`, lines 99-137), taking the decoded HTTP
response `result` as input.  Returns the `(config, direction)` pair.
Non-dict values reached by `.get` calls raise in Python and are caught
by `get_agent_config_from_room`'s `except`, which yields the empty
configuration; `JsonVal.asObjD` short-circuits those cases to the same
observable result. -/
def fetch_agent_config_by_phone (result : RawDict)
    (call_direction : Option JsonVal) (conf_id : Option JsonVal) :
    RawDict × Option JsonVal :=
  if (jGetD result "error" .null).truthy || !response_code_ok result then
    ([], none)
  else
    let data := (jGetD result "data" (.obj [])).asObjD
    let confTruthy : Bool :=
      match conf_id with
      | some c => c.truthy
      | none => false
    if confTruthy && !data.isEmpty then (data, call_direction)
    else
      let phone_data := (jGetD data "phone_number" (.obj [])).asObjD
      if phone_data.isEmpty then ([], none)
      else
        let chosen : Option String :=
          match call_direction with
          | some (.str d) =>
              if d ≠ "" && (jLook phone_data d).isSome then some d else none
          | _ => none
        match chosen with
        | some d => ((jGetD phone_data d (.obj [])).asObjD, some (.str d))
        | none =>
            if (jLook phone_data "inbound").isSome then
              ((jGetD phone_data "inbound" (.obj [])).asObjD, some (.str "inbound"))
            else if (jLook phone_data "outbound").isSome then
              ((jGetD phone_data "outbound" (.obj [])).asObjD, some (.str "outbound"))
            else ([], none)

/-- The call-direction extraction of `get_agent_config_from_room`
(`utils/config_fetcher.py`, lines 175-183): when the participant
metadata is a truthy dict, the raw `direction` value is used verbatim
if truthy and defaults to `"inbound"` otherwise; absent or empty
metadata leaves the direction unset (`None`). -/
def fetcher_call_direction (participant_metadata : Option RawDict) :
    Option JsonVal :=
  match participant_metadata with
  | some md =>
      if md.isEmpty then none
      else
        match jLook md "direction" with
        | some v => if v.truthy then some v else some (.str "inbound")
        | none => some (.str "inbound")
  | none => none

/-- `get_agent_config_from_room` (`utils/config_fetcher.py`, lines
140-203).  `request_outcome` stands for the awaited
`client._make_request` call together with the environment-dependent
token construction: `.error` covers any raised exception (missing
secrets, network failure), `.ok resp` the decoded response dict.  Every
failure path returns the empty dict; the function never propagates an
exception (both fetch paths sit in `try/except`). -/
def get_agent_config_from_room (room_name : String)
    (participant_metadata : Option RawDict)
    (request_outcome : Except Unit RawDict) : RawDict :=
  match extract_phone_from_room_name room_name with
  | none =>
      match participant_metadata with
      | some md =>
          if md.isEmpty then []
          else if (jGetD md "conf_id" .null).truthy then
            match request_outcome with
            | .error _ => []
            | .ok resp =>
                (fetch_agent_config_by_phone resp (jLook md "direction")
                  (some (jGetD md "conf_id" .null))).1
          else []
      | none => []
  | some _phone =>
      match request_outcome with
      | .error _ => []
      | .ok resp =>
          (fetch_agent_config_by_phone resp
            (fetcher_call_direction participant_metadata) none).1

end ConfigFetcher

namespace ApiClient

/-- The JWT payload built inside `APIClient.fetch_agent_config`
(`utils/api_client.py`, lines 134-148): `iat` is the current time and
`exp` is exactly `iat + 3600`; no direction or room name is embedded. -/
def fetch_agent_config_jwt_payload (phone_number : String) (now : Nat) :
    RawDict :=
  [("phone_number", .str phone_number),
   ("role", .str "voice_agent"),
   ("iat", .num (now : Rat)),
   ("exp", .num ((now : Rat) + 3600)),
   ("sub", .str phone_number)]

end ApiClient

namespace CallHistory

/-- `utils/call_history.py::CallRecord`.  Timestamps are abstract
naturals supplied by the caller (the Python code reads
`datetime.now()`); `start_time` is an ISO string in Python and hence
always truthy, so `complete_call` always computes a duration. -/
structure CallRecord where
  call_id : String
  phone_number : String
  room_name : String
  call_type : String
  start_time : Nat
  end_time : Option Nat
  duration_seconds : Option Int
  status : String
  termination_reason : Option String
  agent_config : RawDict
  metrics : RawDict
  outcomes : RawDict
  stage_timeline : List (String × Nat)

/-- `CallRecord.__init__`: a fresh record for a started call. -/
def new_call_record (call_id phone_number room_name call_type : String)
    (now : Nat) : CallRecord :=
  { call_id := call_id
    phone_number := phone_number
    room_name := room_name
    call_type := call_type
    start_time := now
    end_time := none
    duration_seconds := none
    status := "started"
    termination_reason := none
    agent_config :=
      [("stt_config_key", .null), ("llm_config_key", .null),
       ("tts_config_key", .null), ("business_type", .null),
       ("language", .null)]
    metrics :=
      [("total_user_utterances", .num 0), ("total_agent_utterances", .num 0),
       ("longest_user_utterance", .num 0), ("longest_agent_utterance", .num 0),
       ("average_user_response_time", .num 0),
       ("average_agent_response_time", .num 0),
       ("silence_count", .num 0), ("interruption_count", .num 0)]
    outcomes :=
      [("completion_rate", .num 0), ("fields_collected", .arr []),
       ("final_stage", .null), ("successful", .null), ("notes", .null)]
    stage_timeline := [] }

/-- `CallRecord.complete_call`: stamp end time, status, reason and
duration, and merge the supplied outcomes. -/
def complete_call (rec : CallRecord) (now : Nat) (status : String)
    (reason : Option String) (outcomes : Option RawDict) : CallRecord :=
  { rec with
    end_time := some now
    status := status
    termination_reason := reason
    duration_seconds := some ((now : Int) - (rec.start_time : Int))
    outcomes :=
      match outcomes with
      | some o => dictUpdate rec.outcomes o
      | none => rec.outcomes }

/-- `CallRecord.update_config`: a falsy config dict is ignored,
otherwise the five summary keys are re-extracted. -/
def record_update_config (rec : CallRecord) (agent_config : RawDict) :
    CallRecord :=
  if agent_config.isEmpty then rec
  else
    { rec with
      agent_config :=
        [("stt_config_key", jGetD agent_config "stt_config_key" (.str "unknown")),
         ("llm_config_key", jGetD agent_config "llm_config_key" (.str "unknown")),
         ("tts_config_key", jGetD agent_config "tts_config_key" (.str "unknown")),
         ("business_type",
           jGetD (jGetD agent_config "business_config" (.obj [])).asObjD
             "business_type" (.str "unknown")),
         ("language",
           jGetD (jGetD agent_config "business_config" (.obj [])).asObjD
             "language" (.str "english"))] }

/-- `CallRecord.update_stage`: append to the stage timeline and set the
final stage in the outcomes. -/
def record_update_stage (rec : CallRecord) (stage : String) (now : Nat) :
    CallRecord :=
  { rec with
    stage_timeline := rec.stage_timeline ++ [(stage, now)]
    outcomes := dictUpdate rec.outcomes [("final_stage", .str stage)] }

/-- State of the `call_history` module: the module-level `active_calls`
dict plus the log of records POSTed to the call-history endpoint by
`send_call_history` (one entry per attempted transmission, successful
or not). -/
structure CallHistoryState where
  active_calls : List (String × CallRecord)
  sent_records : List CallRecord

/-- Drop a key from the active-call table (`active_calls.pop`; keys are
unique, so removing every binding of the key equals removing the one
binding). -/
def removeKey : List (String × CallRecord) → String →
    List (String × CallRecord)
  | [], _ => []
  | kv :: rest, key =>
      if kv.1 = key then removeKey rest key else kv :: removeKey rest key

/-- `start_call_recording` (`utils/call_history.py`, lines 250-278).
`new_call_id` stands for the generated `uuid4` value; freshness is a
hypothesis where a theorem needs it. -/
def start_call_recording (h : CallHistoryState)
    (new_call_id phone_number room_name call_type : String) (now : Nat) :
    String × CallHistoryState :=
  let fresh := new_call_record new_call_id phone_number room_name call_type now
  (new_call_id,
   { h with active_calls := h.active_calls ++ [(new_call_id, fresh)] })

/-- `update_call_config` (`utils/call_history.py`, lines 281-301):
`False` and no state change when the call id is not active. -/
def update_call_config (h : CallHistoryState) (call_id : String)
    (agent_config : RawDict) : Bool × CallHistoryState :=
  match lookupA h.active_calls call_id with
  | none => (false, h)
  | some rec =>
      (true,
       { h with
         active_calls := h.active_calls.map fun kv =>
           if kv.1 = call_id then (kv.1, record_update_config rec agent_config)
           else kv })

/-- `update_call_stage` (`utils/call_history.py`, lines 304-324). -/
def update_call_stage (h : CallHistoryState) (call_id stage : String)
    (now : Nat) : Bool × CallHistoryState :=
  match lookupA h.active_calls call_id with
  | none => (false, h)
  | some rec =>
      (true,
       { h with
         active_calls := h.active_calls.map fun kv =>
           if kv.1 = call_id then (kv.1, record_update_stage rec stage now)
           else kv })

/-- Result of one `end_call_recording` call: its return value, the new
module state, and how many POSTs to the call-history endpoint the call
attempted. -/
structure EndCallResult where
  success : Bool
  state : CallHistoryState
  transmissions : Nat

/-- `end_call_recording` (`utils/call_history.py`, lines 350-394).  An
unknown call id returns `False` without touching anything; otherwise
the record is completed, removed from `active_calls` (the `pop` on line
377 happens before the `await send_call_history`), and transmitted;
`send_ok` abstracts whether the POST succeeded (`response.get("error")`
falsy). -/
def end_call_recording (h : CallHistoryState) (call_id : String)
    (now : Nat) (status : String) (reason : Option String)
    (outcomes : Option RawDict) (send_ok : Bool) : EndCallResult :=
  match lookupA h.active_calls call_id with
  | none => ⟨false, h, 0⟩
  | some rec =>
      let completed := complete_call rec now status reason outcomes
      ⟨send_ok,
       { active_calls := removeKey h.active_calls call_id
         sent_records := h.sent_records ++ [completed] },
       1⟩

end CallHistory

namespace AgentPy

/-- Lifecycle of one `asyncio.Task` as observed by `end_session`'s
`task and not task.done()` guards: between two sequential awaited
`end_session` runs a cancelled task has been finalized by the event
loop, so `.done()` is true from the second run on. -/
inductive TaskState where
  | noTask : TaskState
  | running : TaskState
  | finished : TaskState
deriving DecidableEq, Repr

/-- The fields of `agent.py::Assistant` that `end_session` reads or
writes, together with effect counters for the externally visible
teardown side effects (pipeline `aclose`, room `disconnect`, monitor
cancellations).  `session_id` is never cleared by the source. -/
structure AssistantState where
  call_duration_task : TaskState
  silence_monitor_task : TaskState
  has_agent_session : Bool
  session_id : Option String
  interaction_stage : String
  history : CallHistory.CallHistoryState
  has_ctx_room : Bool
  aclose_count : Nat
  disconnect_count : Nat
  duration_cancel_count : Nat
  silence_cancel_count : Nat

/-- `Assistant.end_session` followed by `Assistant._terminate_call`
(`agent.py`, lines 611-682), as one sequential execution:
cancel each monitor if present and not done, `aclose` the agent session
if still set (then clear it), finalize the call record when
`session_id` is set (status `"dropped"` with the reason when the reason
is truthy, else `"completed"` with the final-stage outcomes; note
`session_id` itself is left in place), then disconnect from the room.
There is no idempotency flag anywhere in the function. -/
def end_session (s : AssistantState) (reason : Option String) (now : Nat)
    (send_ok : Bool) : AssistantState :=
  let s1 :=
    match s.call_duration_task with
    | .running =>
        { s with call_duration_task := .finished
                 duration_cancel_count := s.duration_cancel_count + 1 }
    | _ => s
  let s2 :=
    match s1.silence_monitor_task with
    | .running =>
        { s1 with silence_monitor_task := .finished
                  silence_cancel_count := s1.silence_cancel_count + 1 }
    | _ => s1
  let s3 :=
    if s2.has_agent_session then
      { s2 with has_agent_session := false
                aclose_count := s2.aclose_count + 1 }
    else s2
  let s4 :=
    match s3.session_id with
    | some id =>
        let truthyReason : Option String :=
          match reason with
          | some r => if r = "" then none else some r
          | none => none
        let r :=
          match truthyReason with
          | some rsn =>
              CallHistory.end_call_recording s3.history id now "dropped"
                (some rsn) none send_ok
          | none =>
              CallHistory.end_call_recording s3.history id now "completed"
                none
                (some [("final_stage", .str s3.interaction_stage),
                       ("successful", .bool true)]) send_ok
        { s3 with history := r.state }
    | none => s3
  if s4.has_ctx_room then
    { s4 with disconnect_count := s4.disconnect_count + 1 }
  else s4

/-- `Assistant._start_call_recording` (`agent.py`, lines 234-271),
after the configuration has been fetched: a truthy
`opt_out_sensitive_data` flag suppresses recording entirely and yields
`None` as the session id; otherwise `start_call_recording` creates and
registers the record and its id is returned. -/
def start_call_recording_gate (raw_config : RawDict)
    (h : CallHistory.CallHistoryState)
    (config_id room_name interaction_type new_call_id : String)
    (now : Nat) : Option String × CallHistory.CallHistoryState :=
  if (jGetD raw_config "opt_out_sensitive_data" (.bool false)).truthy then
    (none, h)
  else
    let r := CallHistory.start_call_recording h new_call_id config_id
      room_name interaction_type now
    (some r.1, r.2)

end AgentPy

namespace AssistantFactory

/-- The SIP-branch call-type resolution of `create_assistant_with_config`
(`assistant_factory.py`, lines 67-97): the `direction` value from the
participant context is used verbatim when the key is present (membership
test `"direction" in participant_context`), else the `call_type` value
verbatim, else the literal `"inbound"`.  No normalization of the value
occurs anywhere in the repository. -/
def resolve_call_type_sip (participant_context : RawDict) : JsonVal :=
  match jLook participant_context "direction" with
  | some v => v
  | none =>
      match jLook participant_context "call_type" with
      | some v => v
      | none => .str "inbound"

/-- `assistant_factory.py::AgentConfig`, without the opaque job
context.  Raw values are kept as stored (`assistant_factory` performs no
coercion on them). -/
structure AgentConfigL where
  stt_config : RawDict
  tts_config : RawDict
  llm_config : RawDict
  instructions : JsonVal
  welcome_message : JsonVal
  welcome_type : JsonVal
  end_call_on_silence : JsonVal
  silence_duration : JsonVal
  max_call_duration : JsonVal
  tools : List (String × ConfigProcessor.ToolConfig)

/-- The default `AgentConfig` built by `create_assistant_with_config`
when the resolution chain produced no configuration
(`assistant_factory.py`, lines 159-172): every field is populated. -/
def default_agent_config : AgentConfigL :=
  { stt_config := []
    tts_config := []
    llm_config := []
    instructions := .str "You are a helpful voice AI assistant."
    welcome_message := .str "Hello! How can I help you today?"
    welcome_type := .str "human_initiates"
    end_call_on_silence := .bool false
    silence_duration := .num 60
    max_call_duration := .num 1800
    tools := ConfigProcessor.prepare_tool_configs [] }

/-- The `AgentConfig` construction of `create_assistant_with_config`
(`assistant_factory.py`, lines 129-174): a truthy raw configuration is
read field by field with `.get` defaults, a falsy one yields the
explicit default record. -/
def build_agent_config (raw_config : RawDict) : AgentConfigL :=
  if raw_config.isEmpty then default_agent_config
  else
    { stt_config := raw_config
      tts_config := raw_config
      llm_config := raw_config
      instructions :=
        jGetD raw_config "assistant_instruction"
          (.str "You are a helpful voice AI assistant.")
      welcome_message :=
        jGetD raw_config "static_message"
          (.str "Hello! How can I help you today?")
      welcome_type :=
        jGetD raw_config "welcome_message_type" (.str "human_initiates")
      end_call_on_silence :=
        jGetD raw_config "end_call_on_silence" (.bool false)
      silence_duration := jGetD raw_config "silence_duration" (.num 60)
      max_call_duration := jGetD raw_config "max_call_duration" (.num 1800)
      tools :=
        ConfigProcessor.prepare_tool_configs
          (jGetD raw_config "tools" (.obj [])).asObjD }

/-- The full configuration-resolution chain seen by a session:
`get_agent_config_from_room` (itself exception-free) wrapped by the
`try/except` of `create_assistant_with_config` lines 100-105, followed
by the `AgentConfig` construction.  Total by construction — resolution
never raises to its caller. -/
def resolve_agent_config (room_name : String)
    (participant_metadata : Option RawDict)
    (request_outcome : Except Unit RawDict) : AgentConfigL :=
  build_agent_config
    (ConfigFetcher.get_agent_config_from_room room_name
      participant_metadata request_outcome)

end AssistantFactory

section HelperLemmas

/-- After removing a key, looking it up fails. -/
theorem lookupA_removeKey_self
    (d : List (String × CallHistory.CallRecord)) (k : String) :
    lookupA (CallHistory.removeKey d k) k = none := by
  induction d with
  | nil => rfl
  | cons kv rest ih =>
      obtain ⟨k0, v0⟩ := kv
      by_cases hk : k0 = k
      · simpa [CallHistory.removeKey, hk] using ih
      · simpa [CallHistory.removeKey, hk, lookupA] using ih

/-- Appending a fresh binding makes it visible to lookup. -/
theorem lookupA_append_fresh
    (d : List (String × CallHistory.CallRecord)) (k : String)
    (v : CallHistory.CallRecord) (hfresh : lookupA d k = none) :
    lookupA (d ++ [(k, v)]) k = some v := by
  induction d with
  | nil => simp [lookupA]
  | cons kv rest ih =>
      obtain ⟨k0, v0⟩ := kv
      by_cases hk : k0 = k
      · simp [lookupA, hk] at hfresh
      · simp only [List.cons_append, lookupA, hk, if_false] at hfresh ⊢
        exact ih hfresh

/-- `end_call_recording` on an unknown id: `False`, unchanged state, no
transmission. -/
theorem end_call_recording_not_found (h : CallHistory.CallHistoryState)
    (id : String) (hnone : lookupA h.active_calls id = none)
    (now : Nat) (status : String) (reason : Option String)
    (outcomes : Option RawDict) (send_ok : Bool) :
    CallHistory.end_call_recording h id now status reason outcomes send_ok
      = ⟨false, h, 0⟩ := by
  simp [CallHistory.end_call_recording, hnone]

/-- `end_call_recording` on an active id: the record is completed,
popped and transmitted once; the return value is the send result. -/
theorem end_call_recording_found (h : CallHistory.CallHistoryState)
    (id : String) (r : CallHistory.CallRecord)
    (hr : lookupA h.active_calls id = some r)
    (now : Nat) (status : String) (reason : Option String)
    (outcomes : Option RawDict) (send_ok : Bool) :
    CallHistory.end_call_recording h id now status reason outcomes send_ok
      = ⟨send_ok,
          ⟨CallHistory.removeKey h.active_calls id,
           h.sent_records ++ [CallHistory.complete_call r now status reason
             outcomes]⟩,
          1⟩ := by
  simp [CallHistory.end_call_recording, hr]

/-- `update_call_config` on an unknown id: `False`, unchanged state. -/
theorem update_call_config_not_found (h : CallHistory.CallHistoryState)
    (id : String) (hnone : lookupA h.active_calls id = none)
    (cfg : RawDict) :
    CallHistory.update_call_config h id cfg = (false, h) := by
  simp [CallHistory.update_call_config, hnone]

/-- `update_call_stage` on an unknown id: `False`, unchanged state. -/
theorem update_call_stage_not_found (h : CallHistory.CallHistoryState)
    (id : String) (hnone : lookupA h.active_calls id = none)
    (stage : String) (now : Nat) :
    CallHistory.update_call_stage h id stage now = (false, h) := by
  simp [CallHistory.update_call_stage, hnone]

end HelperLemmas

/-- C2: once finalization of a call record has run for a `call_id`, the
record is gone from the active-call table; any later
`end_call_recording`, `update_call_config` or `update_call_stage` with
that id returns `False`, leaves the state unchanged, and performs no
further transmission — neither the finalization nor the POST is ever
duplicated. -/
theorem C2_finalization_exactly_once
    (h : CallHistory.CallHistoryState) (id : String)
    (hfound : (lookupA h.active_calls id).isSome = true)
    (now now2 : Nat) (status status2 : String)
    (reason reason2 : Option String) (outcomes outcomes2 : Option RawDict)
    (send_ok2 : Bool) (cfg : RawDict) (stage : String) :
    (CallHistory.end_call_recording h id now status reason outcomes true).success
        = true ∧
    lookupA (CallHistory.end_call_recording h id now status reason outcomes
        true).state.active_calls id = none ∧
    (CallHistory.end_call_recording
        (CallHistory.end_call_recording h id now status reason outcomes true).state
        id now2 status2 reason2 outcomes2 send_ok2)
      = ⟨false,
         (CallHistory.end_call_recording h id now status reason outcomes true).state,
         0⟩ ∧
    (CallHistory.update_call_config
        (CallHistory.end_call_recording h id now status reason outcomes true).state
        id cfg)
      = (false,
         (CallHistory.end_call_recording h id now status reason outcomes true).state) ∧
    (CallHistory.update_call_stage
        (CallHistory.end_call_recording h id now status reason outcomes true).state
        id stage now2)
      = (false,
         (CallHistory.end_call_recording h id now status reason outcomes true).state) := by
  obtain ⟨r, hr⟩ := Option.isSome_iff_exists.mp hfound
  rw [end_call_recording_found h id r hr]
  refine ⟨rfl, lookupA_removeKey_self h.active_calls id, ?_, ?_, ?_⟩
  · exact end_call_recording_not_found _ id
      (lookupA_removeKey_self h.active_calls id) now2 status2 reason2
      outcomes2 send_ok2
  · exact update_call_config_not_found _ id
      (lookupA_removeKey_self h.active_calls id) cfg
  · exact update_call_stage_not_found _ id
      (lookupA_removeKey_self h.active_calls id) stage now2

/-- Witness for C2 at a concrete one-record state. -/
theorem C2_finalization_exactly_once_witness :
    (CallHistory.end_call_recording
        ⟨[("c-1", CallHistory.new_call_record "c-1" "+33644644937" "room-1"
            "inbound" 10)], []⟩
        "c-1" 42 "completed" none none true).success = true ∧
    (CallHistory.end_call_recording
        (CallHistory.end_call_recording
          ⟨[("c-1", CallHistory.new_call_record "c-1" "+33644644937" "room-1"
              "inbound" 10)], []⟩
          "c-1" 42 "completed" none none true).state
        "c-1" 50 "completed" none none true).success = false :=
  ⟨(C2_finalization_exactly_once
      ⟨[("c-1", CallHistory.new_call_record "c-1" "+33644644937" "room-1"
          "inbound" 10)], []⟩
      "c-1" (by decide) 42 50 "completed" "completed" none none none none
      true [] "greeting").1,
   by
    rw [(C2_finalization_exactly_once
      ⟨[("c-1", CallHistory.new_call_record "c-1" "+33644644937" "room-1"
          "inbound" 10)], []⟩
      "c-1" (by decide) 42 50 "completed" "completed" none none none none
      true [] "greeting").2.2.1]⟩

/-- C10: `end_call_recording` pops the record from the active-call
table before the external POST (line 377 precedes the `await
send_call_history`), so a failed transmission still discards the
record: the call returns `False` after one attempted transmission, the
record is gone, and a retry with the same `call_id` reports not-found
and transmits nothing. -/
theorem C10_record_discarded_on_send_failure
    (h : CallHistory.CallHistoryState) (id : String)
    (hfound : (lookupA h.active_calls id).isSome = true)
    (now now2 : Nat) (status status2 : String)
    (reason reason2 : Option String) (outcomes outcomes2 : Option RawDict)
    (send_ok2 : Bool) :
    (CallHistory.end_call_recording h id now status reason outcomes false).success
        = false ∧
    (CallHistory.end_call_recording h id now status reason outcomes
        false).transmissions = 1 ∧
    lookupA (CallHistory.end_call_recording h id now status reason outcomes
        false).state.active_calls id = none ∧
    (CallHistory.end_call_recording
        (CallHistory.end_call_recording h id now status reason outcomes false).state
        id now2 status2 reason2 outcomes2 send_ok2)
      = ⟨false,
         (CallHistory.end_call_recording h id now status reason outcomes false).state,
         0⟩ := by
  obtain ⟨r, hr⟩ := Option.isSome_iff_exists.mp hfound
  rw [end_call_recording_found h id r hr]
  exact ⟨rfl, rfl, lookupA_removeKey_self h.active_calls id,
    end_call_recording_not_found _ id
      (lookupA_removeKey_self h.active_calls id) now2 status2 reason2
      outcomes2 send_ok2⟩

/-- Witness for C10 at a concrete one-record state with a failing
POST. -/
theorem C10_record_discarded_on_send_failure_witness :
    (CallHistory.end_call_recording
        ⟨[("c-2", CallHistory.new_call_record "c-2" "+33644644937" "room-2"
            "inbound" 10)], []⟩
        "c-2" 42 "dropped" (some "silence_timeout") none false).success = false ∧
    lookupA (CallHistory.end_call_recording
        ⟨[("c-2", CallHistory.new_call_record "c-2" "+33644644937" "room-2"
            "inbound" 10)], []⟩
        "c-2" 42 "dropped" (some "silence_timeout") none false).state.active_calls
        "c-2" = none :=
  ⟨(C10_record_discarded_on_send_failure
      ⟨[("c-2", CallHistory.new_call_record "c-2" "+33644644937" "room-2"
          "inbound" 10)], []⟩
      "c-2" (by decide) 42 50 "dropped" "completed" (some "silence_timeout")
      none none none true).1,
   (C10_record_discarded_on_send_failure
      ⟨[("c-2", CallHistory.new_call_record "c-2" "+33644644937" "room-2"
          "inbound" 10)], []⟩
      "c-2" (by decide) 42 50 "dropped" "completed" (some "silence_timeout")
      none none none true).2.2.1⟩

/-- Looking up any of the four tool names in the normalized table gives
the normalization of the raw entry. -/
theorem lookup_prepare_tool_configs (tc : RawDict) (name : String)
    (hname : name ∈ ConfigProcessor.default_tool_names) :
    lookupA (ConfigProcessor.prepare_tool_configs tc) name
      = some (ConfigProcessor.normalize_tool_entry
          (jGetD tc name (.bool false))) := by
  simp only [ConfigProcessor.default_tool_names, List.mem_cons,
    List.not_mem_nil, or_false] at hname
  rcases hname with rfl | rfl | rfl | rfl <;>
    simp [ConfigProcessor.prepare_tool_configs,
      ConfigProcessor.default_tool_names, lookupA]

/-- C8: tool-config normalization accepts the legacy boolean form and
the structured dict form for each of the four tool names: `true` gives
an enabled `ToolConfig` with no URL, `{"enabled": true, "url": u}`
gives an enabled `ToolConfig` carrying the URL, and an absent key or a
value of any other type gives a disabled `ToolConfig`; the result
always lists exactly the four tool names. -/
theorem C8_tool_config_normalization (tc : RawDict) (name : String)
    (hname : name ∈ ConfigProcessor.default_tool_names)
    (u : String) (v : JsonVal) :
    ((ConfigProcessor.prepare_tool_configs tc).map Prod.fst
        = ConfigProcessor.default_tool_names) ∧
    (jLook tc name = some (.bool true) →
      lookupA (ConfigProcessor.prepare_tool_configs tc) name
        = some ⟨.bool true, .null, .null⟩) ∧
    (jLook tc name = some (.obj [("enabled", .bool true), ("url", .str u)]) →
      lookupA (ConfigProcessor.prepare_tool_configs tc) name
        = some ⟨.bool true, .str u, .obj []⟩) ∧
    (jLook tc name = none →
      lookupA (ConfigProcessor.prepare_tool_configs tc) name
        = some ⟨.bool false, .null, .null⟩) ∧
    (jLook tc name = some v → v.isBool = false → v.isObj = false →
      lookupA (ConfigProcessor.prepare_tool_configs tc) name
        = some ⟨.bool false, .null, .null⟩) := by
  refine ⟨rfl, ?_, ?_, ?_, ?_⟩
  · intro hv
    simp only [jLook] at hv
    rw [lookup_prepare_tool_configs tc name hname]
    simp [jGetD, jLook, hv, ConfigProcessor.normalize_tool_entry]
  · intro hv
    simp only [jLook] at hv
    rw [lookup_prepare_tool_configs tc name hname]
    simp [jGetD, jLook, hv, ConfigProcessor.normalize_tool_entry, lookupA]
  · intro hv
    simp only [jLook] at hv
    rw [lookup_prepare_tool_configs tc name hname]
    simp [jGetD, jLook, hv, ConfigProcessor.normalize_tool_entry]
  · intro hv hb ho
    simp only [jLook] at hv
    rw [lookup_prepare_tool_configs tc name hname]
    simp only [jGetD, jLook, hv, Option.getD_some]
    cases v <;> simp_all [ConfigProcessor.normalize_tool_entry,
      JsonVal.isBool, JsonVal.isObj]

/-- Witness for C8: the legacy boolean form and the structured form of
the `sms` tool entry both normalize as stated. -/
theorem C8_tool_config_normalization_witness :
    lookupA (ConfigProcessor.prepare_tool_configs
        [("sms", JsonVal.bool true)]) "sms"
      = some ⟨.bool true, .null, .null⟩ ∧
    lookupA (ConfigProcessor.prepare_tool_configs
        [("sms", JsonVal.obj [("enabled", JsonVal.bool true),
                              ("url", JsonVal.str "https://x")])]) "sms"
      = some ⟨.bool true, .str "https://x", .obj []⟩ ∧
    lookupA (ConfigProcessor.prepare_tool_configs
        [("sms", JsonVal.num 3)]) "sms"
      = some ⟨.bool false, .null, .null⟩ :=
  ⟨(C8_tool_config_normalization [("sms", JsonVal.bool true)] "sms"
      (by decide) "https://x" JsonVal.null).2.1 rfl,
   (C8_tool_config_normalization
      [("sms", JsonVal.obj [("enabled", JsonVal.bool true),
                            ("url", JsonVal.str "https://x")])] "sms"
      (by decide) "https://x" JsonVal.null).2.2.1 rfl,
   (C8_tool_config_normalization [("sms", JsonVal.num 3)] "sms"
      (by decide) "https://x" (JsonVal.num 3)).2.2.2.2 rfl rfl rfl⟩

/-- C9 (amended): `ConfigProcessor.prepare_tts_config` does normalize
the percentage-like voice fields to unit fractions
(`int(stability)/100`, `int(clarity_similarity)/100` stored as
`similarity_boost`), but `Assistant._prepare_tts_config` in `agent.py`
passes the raw `stability` value through unchanged, and
`ModelFactory.create_tts` hands that unnormalized value directly to the
ElevenLabs voice settings. -/
theorem C9_tts_percentage_normalization (cfg tts_cfg : RawDict)
    (s c : Rat) (v : JsonVal) :
    (jLook cfg "stability" = some (.num s) →
      jLook (ConfigProcessor.prepare_tts_config cfg) "stability"
        = some (.num ((pyInt s : Rat) / 100))) ∧
    (jLook cfg "clarity_similarity" = some (.num c) →
      jLook (ConfigProcessor.prepare_tts_config cfg) "similarity_boost"
        = some (.num ((pyInt c : Rat) / 100))) ∧
    (jLook cfg "stability" = some v →
      jLook (AgentPy.prepare_tts_config cfg) "stability" = some v) ∧
    (jLook tts_cfg "provider" = some (.str "elevenlabs") →
      jLook tts_cfg "stability" = some v → v ≠ .null →
      jLook (ModelFactory.tts_settings (ModelFactory.create_tts tts_cfg))
        "stability" = some v) := by
  refine ⟨?_, ?_, ?_, ?_⟩
  · intro hv
    simp only [jLook] at hv
    simp [ConfigProcessor.prepare_tts_config, jLook, lookupA, jNumD, hv]
  · intro hv
    simp only [jLook] at hv
    simp [ConfigProcessor.prepare_tts_config, jLook, lookupA, jNumD, hv]
  · intro hv
    simp only [jLook] at hv
    simp [AgentPy.prepare_tts_config, jLook, lookupA, jGetD, hv]
  · intro hp hs hnn
    simp only [jLook] at hp hs
    have hlow : ModelFactory.pyLower "elevenlabs" = "elevenlabs" := by decide
    simp only [ModelFactory.create_tts, jGetD, jLook, hp, Option.getD_some,
      hlow]
    cases v <;>
      simp_all [ModelFactory.tts_settings, ModelFactory.optionalParams,
        List.filterMap_cons, jLook, lookupA]

/-- Counterexample to C9 as stated: in the `agent.py` path an input
stability of 75 reaches the ElevenLabs voice settings as 75, not as
0.75, although that pipeline expects a unit fraction. -/
theorem C9_percentage_not_normalized_counterexample :
    jLook (ModelFactory.tts_settings (ModelFactory.create_tts
        (AgentPy.prepare_tts_config
          [("voice_provider", JsonVal.str "elevenlabs"),
           ("stability", JsonVal.num 75)])))
      "stability" = some (.num 75) ∧
    (75 : Rat) ≠ 75 / 100 :=
  ⟨rfl, by norm_num⟩

/-- Witness for C9: stability 75 becomes 0.75 on the
`ConfigProcessor` path. -/
theorem C9_tts_percentage_normalization_witness :
    jLook (ConfigProcessor.prepare_tts_config [("stability", JsonVal.num 75)])
      "stability" = some (.num ((pyInt 75 : Rat) / 100)) ∧
    (pyInt 75 : Rat) / 100 = 3 / 4 :=
  ⟨(C9_tts_percentage_normalization [("stability", JsonVal.num 75)] []
      75 85 JsonVal.null).1 rfl,
   by
    have hfl : pyInt 75 = 75 := by
      rw [pyInt, if_pos (by norm_num), Rat.floor_def']
      norm_num
    rw [hfl]
    norm_num⟩

/-- C6: with both monitors armed, `silence_duration_s = T2` strictly
below `max_call_duration_s = T1`, and no voice activity, the silence
monitor's `end_session("silence_timeout")` (at `T2 + 8`, after the
farewell grace period) precedes the duration monitor's
`end_session("max_duration_exceeded")` (at `T1 + 8`), so the session
ends with reason `"silence_timeout"`, not `"max_duration_exceeded"`,
and the duration monitor is cancelled and exits through its
`except asyncio.CancelledError` handler without raising; moreover a
voice-activity signal at `0 < v < T2` resets the silence window to
`v + T2`, so no silence-based termination occurs at the original
deadline `T2`. -/
theorem C6_silence_beats_duration (T1 T2 v : Nat)
    (_hT2 : 0 < T2) (hlt : T2 < T1) :
    (Monitors.monitor_race T1 T2 []).reason = "silence_timeout" ∧
    (Monitors.monitor_race T1 T2 []).reason ≠ "max_duration_exceeded" ∧
    (Monitors.monitor_race T1 T2 []).duration_monitor_cancelled_clean
      = true ∧
    (0 < v → v < T2 →
      Monitors.silence_fire_time T2 [v] T2 = v + T2 ∧ v + T2 ≠ T2) := by
  have hfire : Monitors.silence_fire_time T2 [] T2 = T2 := rfl
  have hrace :
      Monitors.monitor_race T1 T2 [] = ⟨"silence_timeout", T2 + 8, true⟩ := by
    unfold Monitors.monitor_race
    rw [hfire, if_pos (by omega)]
  refine ⟨by simp [hrace], by simp [hrace], by simp [hrace], ?_⟩
  intro hv hvT
  constructor
  · unfold Monitors.silence_fire_time
    rw [if_pos hvT]
    rfl
  · omega

/-- Witness for C6 at `T1 = 1800`, `T2 = 60`, voice activity at 30
seconds (Scenario C of the specification). -/
theorem C6_silence_beats_duration_witness :
    (Monitors.monitor_race 1800 60 []).reason = "silence_timeout" ∧
    Monitors.silence_fire_time 60 [30] 60 = 90 :=
  ⟨(C6_silence_beats_duration 1800 60 30 (by decide) (by decide)).1,
   ((C6_silence_beats_duration 1800 60 30 (by decide) (by decide)).2.2.2
      (by decide) (by decide)).1⟩

/-- C4 (amended): no direction normalization exists in the code.  The
factory's SIP branch uses the metadata `direction` value verbatim when
the key is present, else the `call_type` value verbatim, else the
literal `"inbound"`; the config fetcher uses the `direction` value
verbatim when truthy, falls back to `"inbound"` for an absent or falsy
value inside a nonempty metadata dict, and leaves the direction unset
when the metadata is absent or empty.  In particular `"in"`,
`"incoming"`, `"out"`, `"outgoing"` are not mapped to
`"inbound"`/`"outbound"`. -/
theorem C4_direction_passthrough (pc md : RawDict) (v : JsonVal) :
    (jLook pc "direction" = some v →
      AssistantFactory.resolve_call_type_sip pc = v) ∧
    (jLook pc "direction" = none → jLook pc "call_type" = some v →
      AssistantFactory.resolve_call_type_sip pc = v) ∧
    (jLook pc "direction" = none → jLook pc "call_type" = none →
      AssistantFactory.resolve_call_type_sip pc = .str "inbound") ∧
    (md.isEmpty = false → jLook md "direction" = some v → v.truthy = true →
      ConfigFetcher.fetcher_call_direction (some md) = some v) ∧
    (md.isEmpty = false → jLook md "direction" = some v → v.truthy = false →
      ConfigFetcher.fetcher_call_direction (some md)
        = some (.str "inbound")) ∧
    (md.isEmpty = false → jLook md "direction" = none →
      ConfigFetcher.fetcher_call_direction (some md)
        = some (.str "inbound")) ∧
    ConfigFetcher.fetcher_call_direction none = none := by
  refine ⟨?_, ?_, ?_, ?_, ?_, ?_, rfl⟩
  · intro hv
    simp [AssistantFactory.resolve_call_type_sip, hv]
  · intro hd hc
    simp [AssistantFactory.resolve_call_type_sip, hd, hc]
  · intro hd hc
    simp [AssistantFactory.resolve_call_type_sip, hd, hc]
  · intro hne hv ht
    simp [ConfigFetcher.fetcher_call_direction, hne, hv, ht]
  · intro hne hv ht
    simp [ConfigFetcher.fetcher_call_direction, hne, hv, ht]
  · intro hne hv
    simp [ConfigFetcher.fetcher_call_direction, hne, hv]

/-- Counterexample to C4 as stated: the claim maps `"in"` and
`"incoming"` to `"inbound"`, but both the factory and the fetcher
resolve them to themselves. -/
theorem C4_direction_passthrough_counterexample :
    AssistantFactory.resolve_call_type_sip [("direction", JsonVal.str "in")]
      = .str "in" ∧
    ConfigFetcher.fetcher_call_direction
        (some [("direction", JsonVal.str "incoming")])
      = some (.str "incoming") ∧
    "in" ≠ "inbound" ∧ "incoming" ≠ "inbound" :=
  ⟨rfl, rfl, by decide, by decide⟩

/-- Witness for C4: verbatim pass-through of `"out"`, the default for
absent keys, and the fetcher's default inside nonempty metadata. -/
theorem C4_direction_passthrough_witness :
    AssistantFactory.resolve_call_type_sip [("direction", JsonVal.str "out")]
      = .str "out" ∧
    AssistantFactory.resolve_call_type_sip [] = .str "inbound" ∧
    ConfigFetcher.fetcher_call_direction (some [("x", JsonVal.num 1)])
      = some (.str "inbound") :=
  ⟨(C4_direction_passthrough [("direction", JsonVal.str "out")] []
      (JsonVal.str "out")).1 rfl,
   (C4_direction_passthrough [] [] JsonVal.null).2.2.1 rfl rfl,
   (C4_direction_passthrough [] [("x", JsonVal.num 1)]
      JsonVal.null).2.2.2.2.2.1 rfl rfl⟩

/-- C5 (amended): the token built by `create_phone_jwt` in
`config_fetcher.py` — the one used on the live
`get_agent_config_from_room` fetch path — embeds the phone number and
the room name, stores the direction under a key equal to the direction
string itself (the source writes `direction: direction`), and contains
no `iat` and no `exp` claim at all; the separate
`APIClient.fetch_agent_config` token embeds `phone_number`, `role`,
`sub`, `iat` and `exp = iat + 3600` exactly, but neither a direction
nor a room name. -/
theorem C5_jwt_payload_contents (pn d room : String) (now : Nat)
    (hd1 : d ≠ "iat") (hd2 : d ≠ "exp") :
    ConfigFetcher.lookupK
        (ConfigFetcher.create_phone_jwt_payload pn (some d) (some room))
        (some "iat") = none ∧
    ConfigFetcher.lookupK
        (ConfigFetcher.create_phone_jwt_payload pn (some d) (some room))
        (some "exp") = none ∧
    ConfigFetcher.lookupK
        (ConfigFetcher.create_phone_jwt_payload pn (some d) (some room))
        (some "phone_number") = some (.str pn) ∧
    (d ≠ "phone_number" →
      ConfigFetcher.lookupK
        (ConfigFetcher.create_phone_jwt_payload pn (some d) (some room))
        (some d) = some (.str d)) ∧
    jLook (ApiClient.fetch_agent_config_jwt_payload pn now) "iat"
      = some (.num (now : Rat)) ∧
    jLook (ApiClient.fetch_agent_config_jwt_payload pn now) "exp"
      = some (.num ((now : Rat) + 3600)) ∧
    jLook (ApiClient.fetch_agent_config_jwt_payload pn now) "phone_number"
      = some (.str pn) ∧
    jLook (ApiClient.fetch_agent_config_jwt_payload pn now) "direction"
      = none ∧
    jLook (ApiClient.fetch_agent_config_jwt_payload pn now) "room_name"
      = none := by
  refine ⟨?_, ?_, ?_, ?_, rfl, rfl, rfl, rfl, rfl⟩
  · simp [ConfigFetcher.create_phone_jwt_payload, ConfigFetcher.lookupK, hd1]
  · simp [ConfigFetcher.create_phone_jwt_payload, ConfigFetcher.lookupK, hd2]
  · simp [ConfigFetcher.create_phone_jwt_payload, ConfigFetcher.lookupK]
  · intro hd3
    simp [ConfigFetcher.create_phone_jwt_payload, ConfigFetcher.lookupK,
      hd3, Ne.symm hd3]

/-- Counterexample to C5 as stated: the token sent by the live
configuration-fetch path carries neither an `exp` nor an `iat` claim,
so it does not have a one-hour lifetime. -/
theorem C5_jwt_payload_contents_counterexample :
    ConfigFetcher.lookupK
        (ConfigFetcher.create_phone_jwt_payload "+33644644937"
          (some "inbound") (some "room-1"))
        (some "exp") = none ∧
    ConfigFetcher.lookupK
        (ConfigFetcher.create_phone_jwt_payload "+33644644937"
          (some "inbound") (some "room-1"))
        (some "iat") = none :=
  ⟨rfl, rfl⟩

/-- Witness for C5 at a concrete phone number, direction and time. -/
theorem C5_jwt_payload_contents_witness :
    ConfigFetcher.lookupK
        (ConfigFetcher.create_phone_jwt_payload "+33644644937"
          (some "outbound") (some "room-1"))
        (some "phone_number") = some (.str "+33644644937") ∧
    jLook (ApiClient.fetch_agent_config_jwt_payload "+33644644937" 1000)
        "exp" = some (.num ((1000 : Rat) + 3600)) :=
  ⟨(C5_jwt_payload_contents "+33644644937" "outbound" "room-1" 1000
      (by decide) (by decide)).2.2.1,
   (C5_jwt_payload_contents "+33644644937" "outbound" "room-1" 1000
      (by decide) (by decide)).2.2.2.2.2.1⟩

/-- C3: configuration resolution is total.  If the remote fetch raises
(`request_outcome = .error`) or the response processing yields no
configuration — which covers an error flag, a non-`"00"` response code,
and an identifier with no entry — then `get_agent_config_from_room`
returns the empty configuration and the factory builds the static
default `AgentConfig`, every field of which is populated
(`default_agent_config` is a closed record: instructions, welcome
message and type, silence and duration limits, and the four tool
configurations).  The last two conjuncts discharge the
response-code leg of the hypothesis: a missing or non-`"00"` response
code always yields the empty fetch result.  Totality of
`resolve_agent_config` is the never-raises part of the contract. -/
theorem C3_config_total_fallback (room : String) (md : Option RawDict)
    (req : Except Unit RawDict)
    (hfail : ∀ resp dir conf, req = .ok resp →
      ConfigFetcher.fetch_agent_config_by_phone resp dir conf = ([], none)) :
    ConfigFetcher.get_agent_config_from_room room md req = [] ∧
    AssistantFactory.resolve_agent_config room md req
      = AssistantFactory.default_agent_config ∧
    (∀ resp dir conf, jLook resp "responseCode" = none →
      ConfigFetcher.fetch_agent_config_by_phone resp dir conf
        = ([], none)) ∧
    (∀ resp dir conf s, jLook resp "responseCode" = some (.str s) →
      s ≠ "00" →
      ConfigFetcher.fetch_agent_config_by_phone resp dir conf
        = ([], none)) := by
  have hempty : ConfigFetcher.get_agent_config_from_room room md req = [] := by
    unfold ConfigFetcher.get_agent_config_from_room
    cases hp : ConfigFetcher.extract_phone_from_room_name room with
    | none =>
        cases md with
        | none => rfl
        | some m =>
            by_cases hm : m.isEmpty
            · simp [hm]
            · by_cases hc : (jGetD m "conf_id" .null).truthy = true
              · cases req with
                | error e => simp [hm, hc]
                | ok resp => simp [hm, hc, hfail resp _ _ rfl]
              · simp [hm, hc]
    | some phone =>
        cases req with
        | error e => rfl
        | ok resp => simp [hfail resp _ _ rfl]
  refine ⟨hempty, ?_, ?_, ?_⟩
  · unfold AssistantFactory.resolve_agent_config
    rw [hempty]
    rfl
  · intro resp dir conf h
    have hok : ConfigFetcher.response_code_ok resp = false := by
      unfold ConfigFetcher.response_code_ok
      rw [h]
    unfold ConfigFetcher.fetch_agent_config_by_phone
    rw [hok]
    simp
  · intro resp dir conf s h hs
    have hok : ConfigFetcher.response_code_ok resp = false := by
      unfold ConfigFetcher.response_code_ok
      rw [h]
      split
      · next heq =>
          exfalso
          apply hs
          injection heq with heq1
          injection heq1
      · rfl
    unfold ConfigFetcher.fetch_agent_config_by_phone
    rw [hok]
    simp

/-- Witness for C3: a `"03" / not found` response (Scenario B of the
specification) falls through to the full static default. -/
theorem C3_config_total_fallback_witness :
    ConfigFetcher.get_agent_config_from_room "twilio-+33644644937-abcde"
        none
        (.ok [("responseCode", JsonVal.str "03"),
              ("responseDescription", JsonVal.str "Agent not found")])
      = [] ∧
    AssistantFactory.resolve_agent_config "twilio-+33644644937-abcde"
        none
        (.ok [("responseCode", JsonVal.str "03"),
              ("responseDescription", JsonVal.str "Agent not found")])
      = AssistantFactory.default_agent_config :=
  ⟨(C3_config_total_fallback "twilio-+33644644937-abcde" none
      (.ok [("responseCode", JsonVal.str "03"),
            ("responseDescription", JsonVal.str "Agent not found")])
      (fun resp dir conf h => by cases h; rfl)).1,
   (C3_config_total_fallback "twilio-+33644644937-abcde" none
      (.ok [("responseCode", JsonVal.str "03"),
            ("responseDescription", JsonVal.str "Agent not found")])
      (fun resp dir conf h => by cases h; rfl)).2.1⟩

/-- With no session id, `end_session` leaves the call-history state
untouched (no finalization, no transmission). -/
theorem end_session_history_no_session (s : AgentPy.AssistantState)
    (hsid : s.session_id = none) (reason : Option String) (now : Nat)
    (ok : Bool) :
    (AgentPy.end_session s reason now ok).history = s.history := by
  obtain ⟨dt, st, ha, sid, stg, hist, hcr, a1, a2, a3, a4⟩ := s
  dsimp only at hsid
  subst hsid
  rcases reason with _ | rsn <;>
    cases dt <;> cases st <;> cases ha <;> cases hcr <;>
      simp [AgentPy.end_session]

/-- With an active session id, `end_session` finalizes the record:
one new transmission is logged and the record leaves the active
table. -/
theorem end_session_history_finalizes (s : AgentPy.AssistantState)
    (id : String) (hsid : s.session_id = some id)
    (r : CallHistory.CallRecord)
    (hr : lookupA s.history.active_calls id = some r)
    (reason : Option String) (now : Nat) (ok : Bool) :
    (AgentPy.end_session s reason now ok).history.sent_records.length
      = s.history.sent_records.length + 1 ∧
    lookupA (AgentPy.end_session s reason now ok).history.active_calls id
      = none := by
  obtain ⟨dt, st, ha, sid, stg, hist, hcr, a1, a2, a3, a4⟩ := s
  dsimp only at hsid hr ⊢
  subst hsid
  rcases reason with _ | rsn
  · cases dt <;> cases st <;> cases ha <;> cases hcr <;>
      simp [AgentPy.end_session, CallHistory.end_call_recording, hr,
        lookupA_removeKey_self]
  · by_cases hrs : rsn = "" <;>
      cases dt <;> cases st <;> cases ha <;> cases hcr <;>
        simp [AgentPy.end_session, CallHistory.end_call_recording, hr, hrs,
          lookupA_removeKey_self]

/-- C7: a truthy `opt_out_sensitive_data` flag makes
`_start_call_recording` return `None` and create no record, and an
`end_session` with no session id performs no call-history finalization
or transmission; with the flag absent or falsy a non-`None` fresh call
id is returned, the record is registered, and `end_session` finalizes
it (one transmission, record removed). -/
theorem C7_opt_out_suppresses_recording
    (raw : RawDict) (h : CallHistory.CallHistoryState)
    (cid room itype nid : String) (now now2 : Nat)
    (s : AgentPy.AssistantState) (reason : Option String) (ok : Bool) :
    ((jGetD raw "opt_out_sensitive_data" (.bool false)).truthy = true →
      AgentPy.start_call_recording_gate raw h cid room itype nid now
        = (none, h)) ∧
    (s.session_id = none →
      (AgentPy.end_session s reason now2 ok).history = s.history) ∧
    ((jGetD raw "opt_out_sensitive_data" (.bool false)).truthy = false →
      (AgentPy.start_call_recording_gate raw h cid room itype nid now).1
        = some nid ∧
      (lookupA h.active_calls nid = none →
        lookupA (AgentPy.start_call_recording_gate raw h cid room itype nid
            now).2.active_calls nid
          = some (CallHistory.new_call_record nid cid room itype now))) ∧
    (s.session_id = some nid →
      (lookupA s.history.active_calls nid).isSome = true →
      (AgentPy.end_session s reason now2 ok).history.sent_records.length
        = s.history.sent_records.length + 1 ∧
      lookupA (AgentPy.end_session s reason now2 ok).history.active_calls
          nid
        = none) := by
  refine ⟨?_, ?_, ?_, ?_⟩
  · intro hflag
    simp [AgentPy.start_call_recording_gate, hflag]
  · intro hsid
    exact end_session_history_no_session s hsid reason now2 ok
  · intro hflag
    constructor
    · simp [AgentPy.start_call_recording_gate, hflag,
        CallHistory.start_call_recording]
    · intro hfresh
      simp only [AgentPy.start_call_recording_gate, hflag, Bool.false_eq_true,
        if_false, CallHistory.start_call_recording]
      exact lookupA_append_fresh h.active_calls nid _ hfresh
  · intro hsid hfound
    obtain ⟨r, hr⟩ := Option.isSome_iff_exists.mp hfound
    exact end_session_history_finalizes s nid hsid r hr reason now2 ok

/-- Witness for C7 at a concrete raw configuration with the flag set,
one with the flag absent, and a concrete session state. -/
theorem C7_opt_out_suppresses_recording_witness :
    AgentPy.start_call_recording_gate
        [("opt_out_sensitive_data", JsonVal.bool true)] ⟨[], []⟩
        "+33644644937" "room-1" "inbound" "c-7" 5
      = (none, ⟨[], []⟩) ∧
    (AgentPy.start_call_recording_gate [] ⟨[], []⟩
        "+33644644937" "room-1" "inbound" "c-7" 5).1 = some "c-7" ∧
    (AgentPy.end_session
        ⟨.running, .running, true, some "c-7", "greeting",
         ⟨[("c-7", CallHistory.new_call_record "c-7" "+33644644937" "room-1"
             "inbound" 5)], []⟩,
         true, 0, 0, 0, 0⟩
        none 90 true).history.sent_records.length = 0 + 1 :=
  ⟨(C7_opt_out_suppresses_recording
      [("opt_out_sensitive_data", JsonVal.bool true)] ⟨[], []⟩
      "+33644644937" "room-1" "inbound" "c-7" 5 90
      ⟨.noTask, .noTask, false, none, "greeting", ⟨[], []⟩, false, 0, 0, 0, 0⟩
      none true).1 rfl,
   ((C7_opt_out_suppresses_recording [] ⟨[], []⟩
      "+33644644937" "room-1" "inbound" "c-7" 5 90
      ⟨.noTask, .noTask, false, none, "greeting", ⟨[], []⟩, false, 0, 0, 0, 0⟩
      none true).2.2.1 rfl).1,
   ((C7_opt_out_suppresses_recording [] ⟨[], []⟩
      "+33644644937" "room-1" "inbound" "c-7" 5 90
      ⟨.running, .running, true, some "c-7", "greeting",
       ⟨[("c-7", CallHistory.new_call_record "c-7" "+33644644937" "room-1"
           "inbound" 5)], []⟩,
       true, 0, 0, 0, 0⟩
      none true).2.2.2 rfl (by decide)).1⟩

/-- Effect of one `end_session` run on every field other than the call
history: the pipeline is closed iff it was open, the room disconnect
always re-runs when a room context exists, each monitor cancellation is
issued only when its task is present and not done, and `session_id`,
`has_ctx_room` and the stage survive unchanged (`session_id` is never
cleared). -/
theorem end_session_frame (s : AgentPy.AssistantState)
    (reason : Option String) (now : Nat) (ok : Bool) :
    (AgentPy.end_session s reason now ok).aclose_count
      = s.aclose_count + (if s.has_agent_session = true then 1 else 0) ∧
    (AgentPy.end_session s reason now ok).disconnect_count
      = s.disconnect_count + (if s.has_ctx_room = true then 1 else 0) ∧
    (AgentPy.end_session s reason now ok).duration_cancel_count
      = s.duration_cancel_count
        + (if s.call_duration_task = .running then 1 else 0) ∧
    (AgentPy.end_session s reason now ok).silence_cancel_count
      = s.silence_cancel_count
        + (if s.silence_monitor_task = .running then 1 else 0) ∧
    (AgentPy.end_session s reason now ok).has_agent_session = false ∧
    (AgentPy.end_session s reason now ok).call_duration_task
      = (if s.call_duration_task = .noTask then .noTask else .finished) ∧
    (AgentPy.end_session s reason now ok).silence_monitor_task
      = (if s.silence_monitor_task = .noTask then .noTask else .finished) ∧
    (AgentPy.end_session s reason now ok).session_id = s.session_id ∧
    (AgentPy.end_session s reason now ok).has_ctx_room = s.has_ctx_room ∧
    (AgentPy.end_session s reason now ok).interaction_stage
      = s.interaction_stage := by
  obtain ⟨dt, st, ha, sid, stg, hist, hcr, a1, a2, a3, a4⟩ := s
  rcases reason with _ | rsn
  · cases dt <;> cases st <;> cases ha <;> cases hcr <;>
      rcases sid with _ | i <;>
        simp [AgentPy.end_session, CallHistory.end_call_recording]
  · by_cases hrs : rsn = "" <;>
      cases dt <;> cases st <;> cases ha <;> cases hcr <;>
        rcases sid with _ | i <;>
          simp [AgentPy.end_session, CallHistory.end_call_recording, hrs]

/-- When the session id points at a record that is no longer active,
`end_session` re-invokes `end_call_recording`, which reports not-found
and leaves the call-history state unchanged. -/
theorem end_session_history_not_found (s : AgentPy.AssistantState)
    (id : String) (hsid : s.session_id = some id)
    (hnone : lookupA s.history.active_calls id = none)
    (reason : Option String) (now : Nat) (ok : Bool) :
    (AgentPy.end_session s reason now ok).history = s.history := by
  obtain ⟨dt, st, ha, sid, stg, hist, hcr, a1, a2, a3, a4⟩ := s
  dsimp only at hsid hnone
  subst hsid
  rcases reason with _ | rsn
  · cases dt <;> cases st <;> cases ha <;> cases hcr <;>
      simp [AgentPy.end_session, CallHistory.end_call_recording, hnone]
  · by_cases hrs : rsn = "" <;>
      cases dt <;> cases st <;> cases ha <;> cases hcr <;>
        simp [AgentPy.end_session, CallHistory.end_call_recording, hnone, hrs]

/-- Counterexample to C1 as stated: `end_session` has no idempotency
guard, so a second sequential invocation on the same session is not a
no-op — it runs the room disconnect again (`_terminate_call` executes
on every call), so the disconnect does not occur exactly once.  The
initial state is a fully active session with one recorded call. -/
theorem C1_end_session_counterexample :
    (AgentPy.end_session
        (AgentPy.end_session
          ⟨.running, .running, true, some "c-1", "greeting",
           ⟨[("c-1", CallHistory.new_call_record "c-1" "+33644644937"
               "room-1" "inbound" 0)], []⟩,
           true, 0, 0, 0, 0⟩
          none 5 true)
        none 6 true).disconnect_count = 2 ∧
    (AgentPy.end_session
        ⟨.running, .running, true, some "c-1", "greeting",
         ⟨[("c-1", CallHistory.new_call_record "c-1" "+33644644937"
             "room-1" "inbound" 0)], []⟩,
         true, 0, 0, 0, 0⟩
        none 5 true).disconnect_count = 1 :=
  ⟨rfl, rfl⟩

/-- C1 (amended): across two sequential `end_session` invocations on a
fully active session, the pipeline stop, each monitor cancellation and
the call-record transmission happen exactly once — the first run nulls
the session, marks the tasks done and removes the record, so the second
run skips them (`end_call_recording` then reports not-found) — but the
second invocation is not a no-op: the room disconnect runs again on
every invocation, because `end_session` has no idempotency flag. -/
theorem C1_end_session_partial_idempotence
    (s : AgentPy.AssistantState) (id : String)
    (hdt : s.call_duration_task = .running)
    (hst : s.silence_monitor_task = .running)
    (hha : s.has_agent_session = true)
    (hsid : s.session_id = some id)
    (hfound : (lookupA s.history.active_calls id).isSome = true)
    (hctx : s.has_ctx_room = true)
    (ha1 : s.aclose_count = 0) (ha2 : s.disconnect_count = 0)
    (ha3 : s.duration_cancel_count = 0) (ha4 : s.silence_cancel_count = 0)
    (r1 r2 : Option String) (n1 n2 : Nat) (ok1 ok2 : Bool) :
    (AgentPy.end_session (AgentPy.end_session s r1 n1 ok1) r2 n2
        ok2).aclose_count = 1 ∧
    (AgentPy.end_session (AgentPy.end_session s r1 n1 ok1) r2 n2
        ok2).duration_cancel_count = 1 ∧
    (AgentPy.end_session (AgentPy.end_session s r1 n1 ok1) r2 n2
        ok2).silence_cancel_count = 1 ∧
    (AgentPy.end_session (AgentPy.end_session s r1 n1 ok1) r2 n2
        ok2).history.sent_records.length
      = s.history.sent_records.length + 1 ∧
    lookupA (AgentPy.end_session (AgentPy.end_session s r1 n1 ok1) r2 n2
        ok2).history.active_calls id = none ∧
    (AgentPy.end_session s r1 n1 ok1).disconnect_count = 1 ∧
    (AgentPy.end_session (AgentPy.end_session s r1 n1 ok1) r2 n2
        ok2).disconnect_count = 2 := by
  obtain ⟨r, hr⟩ := Option.isSome_iff_exists.mp hfound
  obtain ⟨f1a, f1b, f1c, f1d, f1e, f1f, f1g, f1h, f1i, f1j⟩ :=
    end_session_frame s r1 n1 ok1
  obtain ⟨h1len, h1look⟩ :=
    end_session_history_finalizes s id hsid r hr r1 n1 ok1
  obtain ⟨f2a, f2b, f2c, f2d, f2e, f2f, f2g, f2h, f2i, f2j⟩ :=
    end_session_frame (AgentPy.end_session s r1 n1 ok1) r2 n2 ok2
  have h2hist :
      (AgentPy.end_session (AgentPy.end_session s r1 n1 ok1) r2 n2
        ok2).history = (AgentPy.end_session s r1 n1 ok1).history :=
    end_session_history_not_found _ id (by rw [f1h, hsid]) h1look r2 n2 ok2
  refine ⟨?_, ?_, ?_, ?_, ?_, ?_, ?_⟩
  · rw [f2a, f1a, ha1, hha, f1e]
    simp
  · rw [f2c, f1c, ha3, hdt, f1f, hdt]
    simp
  · rw [f2d, f1d, ha4, hst, f1g, hst]
    simp
  · rw [h2hist, h1len]
  · rw [h2hist]
    exact h1look
  · rw [f1b, ha2, hctx]
    simp
  · rw [f2b, f1b, ha2, hctx, f1i, hctx]
    simp

/-- Witness for C1 at a concrete fully active session state. -/
theorem C1_end_session_partial_idempotence_witness :
    (AgentPy.end_session
        (AgentPy.end_session
          ⟨.running, .running, true, some "c-3", "greeting",
           ⟨[("c-3", CallHistory.new_call_record "c-3" "+33644644937"
               "room-3" "inbound" 0)], []⟩,
           true, 0, 0, 0, 0⟩
          (some "silence_timeout") 60 true)
        (some "system_interrupt") 61 true).aclose_count = 1 ∧
    (AgentPy.end_session
        (AgentPy.end_session
          ⟨.running, .running, true, some "c-3", "greeting",
           ⟨[("c-3", CallHistory.new_call_record "c-3" "+33644644937"
               "room-3" "inbound" 0)], []⟩,
           true, 0, 0, 0, 0⟩
          (some "silence_timeout") 60 true)
        (some "system_interrupt") 61 true).history.sent_records.length
      = 0 + 1 :=
  ⟨(C1_end_session_partial_idempotence
      ⟨.running, .running, true, some "c-3", "greeting",
       ⟨[("c-3", CallHistory.new_call_record "c-3" "+33644644937"
           "room-3" "inbound" 0)], []⟩,
       true, 0, 0, 0, 0⟩
      "c-3" rfl rfl rfl rfl (by decide) rfl rfl rfl rfl rfl
      (some "silence_timeout") (some "system_interrupt") 60 61 true true).1,
   (C1_end_session_partial_idempotence
      ⟨.running, .running, true, some "c-3", "greeting",
       ⟨[("c-3", CallHistory.new_call_record "c-3" "+33644644937"
           "room-3" "inbound" 0)], []⟩,
       true, 0, 0, 0, 0⟩
      "c-3" rfl rfl rfl rfl (by decide) rfl rfl rfl rfl rfl
      (some "silence_timeout") (some "system_interrupt") 60 61 true
      true).2.2.2.1⟩
